import Mathlib

/-!
# Verification of the JIT `ArenaAllocator` (src/src/jit/alloc.h)

A shallow embedding of the page-backed bump-pointer arena allocator.

The only source file available is `src/src/jit/alloc.h`, which contains the
`ArenaAllocator` class layout, the `PageDescriptor` layout, the
`DEFAULT_PAGE_SIZE` enum and the full body of the inline entry point
`ArenaAllocator::allocateMemory`.  The bodies of `allocateNewPage`, the
constructors, `destroy`, `getTotalBytesAllocated` / `getTotalBytesUsed` and
the helper `roundUp` live in other files of the repository that are not
available; those are modelled from the spec (each such definition carries a
doc comment starting with `Modelled from the spec:`).

Addresses are modelled as `Nat`; a null pointer is the address `0`.  The
model reflects a 64-bit build: `sizeof(size_t) = 8` and
`sizeof(PageDescriptor) = 32` (two pointers plus two `size_t` fields; the
flexible array member `m_contents[]` contributes no size).  The external
backing store (host memory manager or process heap) supplies the raw storage
of each new page; it is modelled as an input `Option Nat`: `some a` means
the backing store returned a block starting at address `a`, `none` means the
backing allocation failed.  The debug-only 1-byte probe allocation through
the process heap (`ClrAllocInProcessHeap`) is likewise an external
collaborator, modelled as a boolean input `probeOk`.  C `assert`s are
compiled out in release builds and are not modelled.
-/

/-- `sizeof(size_t)` on the modelled 64-bit platform: the pointer width, the
granularity to which every allocation size is rounded up. -/
def ptrSize : Nat := 8

/-- Modelled from the spec: the platform's native memory page size (the
`OS_page_size` constant from `host.h`, which is not under `src/`).  The
spec's scenario section fixes it at 4096 bytes. -/
def osPageSize : Nat := 4096

/-- `DEFAULT_PAGE_SIZE = 16 * OS_page_size` (src/src/jit/alloc.h line 35):
sixteen times the platform's native memory page size. -/
def defaultPageSize : Nat := 16 * osPageSize

/-- `sizeof(PageDescriptor)` on the modelled 64-bit platform: `m_next` and
`m_previous` pointers (8 bytes each) plus `m_pageBytes` and `m_usedBytes`
(`size_t`, 8 bytes each); the flexible array member `m_contents[]` adds no
size.  This is the page header overhead of each page. -/
def pageHeaderOverhead : Nat := 32

/-- Modelled from the spec: the JIT utility `roundUp(size, mult)` (declared
outside `src/`), which "rounds `size` up to the native pointer-width
granularity".  For `mult = 8` this agrees with the usual bit trick. -/
def roundUp (size mult : Nat) : Nat :=
  ((size + mult - 1) / mult) * mult

/-- One page of the arena's page chain.  Mirrors `PageDescriptor`
(src/src/jit/alloc.h lines 19-29): `start` is the address of the usable
storage `m_contents`, `pageBytes` mirrors `m_pageBytes` (the page's
capacity), `usedBytes` mirrors `m_usedBytes` (the high-water mark recorded
when the page stops being the active page).  The `m_next` / `m_previous`
links are represented by the position of the page in the arena's list. -/
structure PageDescriptor where
  start : Nat
  pageBytes : Nat
  usedBytes : Nat
deriving DecidableEq, Repr

/-- The mutable state of an `ArenaAllocator`: the page chain from
`m_firstPage` to `m_lastPage` (as a list, first page first), the bump cursor
`m_nextFreeByte` and the limit `m_lastFreeByte` (src/src/jit/alloc.h lines
43-48).  Null pointers are the address `0`. -/
structure ArenaState where
  pages : List PageDescriptor
  nextFreeByte : Nat
  lastFreeByte : Nat
deriving DecidableEq, Repr

/-- Modelled from the spec: a just-constructed (or just-destroyed) arena has
no pages and null cursor/limit pointers ("both are null when
uninitialized"). -/
def freshArena : ArenaState :=
  { pages := [], nextFreeByte := 0, lastFreeByte := 0 }

/-- The debug-build configuration of `allocateMemory`: whether the build is
a DEBUG build at all (the `#if defined(DEBUG)` blocks), and whether
`JitConfig.ShouldInjectFault() != 0`. -/
structure DebugConfig where
  isDebug : Bool
  injectFault : Bool
deriving DecidableEq, Repr

/-- A release build: no fault injection, no stamping. -/
def releaseCfg : DebugConfig :=
  { isDebug := false, injectFault := false }

/-- The outcome of an allocation request.  `ok block s` is a normal return
of address `block` with post-state `s`; `oom s` models the `NOMEM()` throw
(a fatal out-of-memory condition) escaping with the arena left in state `s`;
`nullPtr s` models the fail-soft `nullptr` return of `allocateNewPage` when
`canThrow` is false. -/
inductive AllocResult where
  | ok (block : Nat) (s : ArenaState)
  | oom (s : ArenaState)
  | nullPtr (s : ArenaState)
deriving DecidableEq, Repr

/-- Modelled from the spec: before switching pages, page growth "records the
outgoing page's `highWaterMarkBytes = cursor − pageStart`" on the page that
is currently last in the chain.  Earlier pages are untouched. -/
def recordOutgoing (pages : List PageDescriptor) (cursor : Nat) : List PageDescriptor :=
  match pages with
  | [] => []
  | [p] => [{ p with usedBytes := cursor - p.start }]
  | p :: rest => p :: recordOutgoing rest cursor

/-- Modelled from the spec: `ArenaAllocator::allocateNewPage(size, canThrow)`
(declared at src/src/jit/alloc.h line 52; body not under `src/`).  Per spec
section 4.2 it records the outgoing page's high-water mark, chooses the new
page's capacity as `max(defaultPageSize, size + pageHeaderOverhead)`, and
requests raw storage from the backing-store adapter (modelled by the input
`newStart`).  On success it links the new page as the last page, repositions
`cursor`/`limit` to the new page's usable window and carves the requested
block from its start.  On backing-store failure it escalates to a fatal
out-of-memory condition when `canThrow` is true, and returns null when
`canThrow` is false.  Note that the caller (`allocateMemory`) has already
advanced the cursor past the limit when this runs. -/
def allocateNewPage (s : ArenaState) (size : Nat) (canThrow : Bool)
    (newStart : Option Nat) : AllocResult :=
  let pages := recordOutgoing s.pages s.nextFreeByte
  let capacity := max defaultPageSize (size + pageHeaderOverhead)
  match newStart with
  | none =>
      if canThrow then .oom { s with pages := pages }
      else .nullPtr { s with pages := pages }
  | some a =>
      let page : PageDescriptor := { start := a, pageBytes := capacity, usedBytes := 0 }
      .ok a { pages := pages ++ [page], nextFreeByte := a + size, lastFreeByte := a + capacity }

/-- `ArenaAllocator::allocateMemory` (src/src/jit/alloc.h lines 100-138).
Faithful to the source: the size is rounded up to `sizeof(size_t)`; in a
DEBUG build with fault injection enabled, a 1-byte probe allocation through
the process heap is attempted first (its outcome is the external input
`probeOk`) and a failed probe throws `NOMEM()` before the arena is touched;
then `block` is set to `m_nextFreeByte`, the cursor is advanced by the
rounded size, and only afterwards is the cursor compared against
`m_lastFreeByte` — on overflow the block comes from
`allocateNewPage(size, true)` instead.  The DEBUG-only `memset` stamping is
modelled separately by `allocateMemoryMem`. -/
def allocateMemory (cfg : DebugConfig) (s : ArenaState) (size : Nat)
    (probeOk : Bool) (newStart : Option Nat) : AllocResult :=
  if cfg.isDebug && cfg.injectFault && !probeOk then
    .oom s
  else
    let sz := roundUp size ptrSize
    let block := s.nextFreeByte
    let s1 : ArenaState := { s with nextFreeByte := s.nextFreeByte + sz }
    if s1.nextFreeByte > s1.lastFreeByte then
      allocateNewPage s1 sz true newStart
    else
      .ok block s1

/-- The byte-addressed process memory, for stating the DEBUG stamping
behaviour. -/
def Mem : Type := Nat → Nat

/-- `memset(addr, val, n)`: every byte of `[addr, addr + n)` becomes `val`. -/
def memset (mem : Mem) (addr n val : Nat) : Mem :=
  fun x => if addr ≤ x ∧ x < addr + n then val else mem x

/-- Modelled from the spec: the "fixed sentinel pattern" written over
returned blocks in DEBUG builds (`UninitializedWord<char>`, defined outside
`src/`); the concrete byte value is irrelevant to the claims. -/
def uninitializedSentinel : Nat := 0xDD

/-- `allocateMemory` together with its effect on process memory: in a DEBUG
build, after the request is serviced the returned block is overwritten with
the sentinel pattern for the full rounded size
(`memset(block, UninitializedWord<char>(nullptr), size)`,
src/src/jit/alloc.h lines 133-135).  When `NOMEM()` is thrown the `memset`
is never reached. -/
def allocateMemoryMem (cfg : DebugConfig) (s : ArenaState) (size : Nat)
    (probeOk : Bool) (newStart : Option Nat) (mem : Mem) : AllocResult × Mem :=
  match allocateMemory cfg s size probeOk newStart with
  | .ok block s1 =>
      (.ok block s1,
        if cfg.isDebug then memset mem block (roundUp size ptrSize) uninitializedSentinel
        else mem)
  | r => (r, mem)

/-- The events of the DEBUG fault-injection probe on the process heap:
`ClrAllocInProcessHeap(0, S_SIZE_T(1))` followed, when it succeeds, by
`ClrFreeInProcessHeap(0, p)` (src/src/jit/alloc.h lines 108-122). -/
inductive ProbeEvent where
  | alloc
  | free
deriving DecidableEq, Repr

/-- The sequence of probe events `allocateMemory` performs on the process
heap: none unless this is a DEBUG build with fault injection on; otherwise a
1-byte allocation, and a matching free exactly when the probe succeeded. -/
def probeTrace (cfg : DebugConfig) (probeOk : Bool) : List ProbeEvent :=
  if cfg.isDebug && cfg.injectFault then
    if probeOk then [.alloc, .free] else [.alloc]
  else []

/-- Modelled from the spec: `ArenaAllocator::destroy` (declared at
src/src/jit/alloc.h line 68; body not under `src/`) walks the page chain
releasing every page's storage through the backing-store adapter, then
resets all fields to their just-constructed state.  The first component is
the list of pages released; the second is the reset arena. -/
def destroy (s : ArenaState) : List PageDescriptor × ArenaState :=
  (s.pages, freshArena)

/-- Modelled from the spec: `getTotalBytesAllocated` — "allocated counts
full page capacities ever created" since the last `destroy`, i.e. the sum of
the capacities of the pages in the chain. -/
def getTotalBytesAllocated (s : ArenaState) : Nat :=
  (s.pages.map (fun p => p.pageBytes)).sum

/-- Modelled from the spec: `getTotalBytesUsed` — "used counts
actually-consumed bytes including the live page's current high-water mark
(`cursor − pageStart`)": the recorded `usedBytes` of every superseded page
plus the live usage of the last page. -/
def getTotalBytesUsed (s : ArenaState) : Nat :=
  match s.pages.getLast? with
  | none => 0
  | some p =>
      ((s.pages.dropLast.map (fun q => q.usedBytes)).sum) + (s.nextFreeByte - p.start)

/-- The spec's state invariant (section 3): "`cursor` and `limit`, when
non-null, always point within `lastPage`'s storage", i.e. whenever the two
pointers are not both null, the chain is nonempty and
`pageStart(lastPage) ≤ cursor ≤ limit ≤ pageStart(lastPage) + capacityBytes(lastPage)`. -/
def arenaInvariant (s : ArenaState) : Bool :=
  if s.nextFreeByte = 0 && s.lastFreeByte = 0 then
    true
  else
    match s.pages.getLast? with
    | none => false
    | some p =>
        decide (p.start ≤ s.nextFreeByte) && decide (s.nextFreeByte ≤ s.lastFreeByte) &&
          decide (s.lastFreeByte ≤ p.start + p.pageBytes)

example :
    allocateMemory releaseCfg freshArena 40 true (some 4096) =
      .ok 4096 { pages := [{ start := 4096, pageBytes := 65536, usedBytes := 0 }],
                 nextFreeByte := 4136, lastFreeByte := 4096 + 65536 } := by
  decide

example :
    allocateMemory releaseCfg
      { pages := [{ start := 4096, pageBytes := 65536, usedBytes := 0 }],
        nextFreeByte := 4136, lastFreeByte := 69632 } 40 true none =
      .ok 4136 { pages := [{ start := 4096, pageBytes := 65536, usedBytes := 0 }],
                 nextFreeByte := 4176, lastFreeByte := 69632 } := by
  decide

/-! ## Shared lemmas -/

theorem ptrSize_le_roundUp (size : Nat) (h : 0 < size) :
    ptrSize ≤ roundUp size ptrSize := by
  unfold roundUp ptrSize
  omega

theorem roundUp_mod (size : Nat) : roundUp size ptrSize % ptrSize = 0 := by
  unfold roundUp ptrSize
  omega

theorem recordOutgoing_map_pageBytes (ps : List PageDescriptor) (c : Nat) :
    ((recordOutgoing ps c).map fun p => p.pageBytes) = ps.map fun p => p.pageBytes := by
  induction ps with
  | nil => rfl
  | cons p rest ih =>
      cases rest with
      | nil => rfl
      | cons q tail =>
          simp only [recordOutgoing, List.map_cons] at ih ⊢
          rw [ih]

theorem recordOutgoing_length (ps : List PageDescriptor) (c : Nat) :
    (recordOutgoing ps c).length = ps.length := by
  have h := recordOutgoing_map_pageBytes ps c
  have h1 := congrArg List.length h
  simpa using h1

theorem allocateMemory_fault (cfg : DebugConfig) (s : ArenaState) (size : Nat)
    (probeOk : Bool) (newStart : Option Nat)
    (hf : (cfg.isDebug && cfg.injectFault && !probeOk) = true) :
    allocateMemory cfg s size probeOk newStart = .oom s := by
  unfold allocateMemory
  rw [if_pos hf]

theorem allocateMemory_fastPath (cfg : DebugConfig) (s : ArenaState) (size : Nat)
    (probeOk : Bool) (newStart : Option Nat)
    (hne : (cfg.isDebug && cfg.injectFault && !probeOk) = false)
    (hfast : s.nextFreeByte + roundUp size ptrSize ≤ s.lastFreeByte) :
    allocateMemory cfg s size probeOk newStart =
      .ok s.nextFreeByte { s with nextFreeByte := s.nextFreeByte + roundUp size ptrSize } := by
  unfold allocateMemory
  rw [hne]
  simp only [Bool.false_eq_true, if_false]
  rw [if_neg (by simpa using Nat.not_lt.mpr hfast)]

theorem allocateMemory_slowPath (cfg : DebugConfig) (s : ArenaState) (size : Nat)
    (probeOk : Bool) (newStart : Option Nat)
    (hne : (cfg.isDebug && cfg.injectFault && !probeOk) = false)
    (hslow : s.lastFreeByte < s.nextFreeByte + roundUp size ptrSize) :
    allocateMemory cfg s size probeOk newStart =
      allocateNewPage { s with nextFreeByte := s.nextFreeByte + roundUp size ptrSize }
        (roundUp size ptrSize) true newStart := by
  unfold allocateMemory
  rw [hne]
  simp only [Bool.false_eq_true, if_false]
  rw [if_pos (by simpa using hslow)]

theorem allocateNewPage_some (s : ArenaState) (size : Nat) (canThrow : Bool) (a : Nat) :
    allocateNewPage s size canThrow (some a) =
      .ok a { pages := recordOutgoing s.pages s.nextFreeByte ++
                [{ start := a, pageBytes := max defaultPageSize (size + pageHeaderOverhead),
                   usedBytes := 0 }],
              nextFreeByte := a + size,
              lastFreeByte := a + max defaultPageSize (size + pageHeaderOverhead) } := rfl

theorem allocateNewPage_none_canThrow (s : ArenaState) (size : Nat) :
    allocateNewPage s size true none =
      .oom { s with pages := recordOutgoing s.pages s.nextFreeByte } := rfl

theorem allocateMemory_ok_cases (cfg : DebugConfig) (s : ArenaState) (size : Nat)
    (probeOk : Bool) (newStart : Option Nat) (block : Nat) (s1 : ArenaState)
    (h : allocateMemory cfg s size probeOk newStart = .ok block s1) :
    (s.nextFreeByte + roundUp size ptrSize ≤ s.lastFreeByte ∧
      block = s.nextFreeByte ∧
      s1 = { s with nextFreeByte := s.nextFreeByte + roundUp size ptrSize }) ∨
    (s.lastFreeByte < s.nextFreeByte + roundUp size ptrSize ∧
      ∃ a, newStart = some a ∧ block = a ∧
        s1 = { pages := recordOutgoing s.pages (s.nextFreeByte + roundUp size ptrSize) ++
                  [{ start := a,
                     pageBytes := max defaultPageSize (roundUp size ptrSize + pageHeaderOverhead),
                     usedBytes := 0 }],
               nextFreeByte := a + roundUp size ptrSize,
               lastFreeByte := a + max defaultPageSize (roundUp size ptrSize + pageHeaderOverhead) }) := by
  by_cases hf : (cfg.isDebug && cfg.injectFault && !probeOk) = true
  · rw [allocateMemory_fault cfg s size probeOk newStart hf] at h
    exact absurd h (by simp)
  · have hne : (cfg.isDebug && cfg.injectFault && !probeOk) = false := by
      simpa using hf
    by_cases hc : s.nextFreeByte + roundUp size ptrSize ≤ s.lastFreeByte
    · left
      rw [allocateMemory_fastPath cfg s size probeOk newStart hne hc] at h
      injection h with hb hs
      exact ⟨hc, hb.symm, hs.symm⟩
    · right
      have hslow : s.lastFreeByte < s.nextFreeByte + roundUp size ptrSize := by omega
      refine ⟨hslow, ?_⟩
      rw [allocateMemory_slowPath cfg s size probeOk newStart hne hslow] at h
      cases newStart with
      | none => rw [allocateNewPage_none_canThrow] at h; exact absurd h (by simp)
      | some a =>
          rw [allocateNewPage_some] at h
          injection h with hb hs
          exact ⟨a, rfl, hb.symm, hs.symm⟩

theorem arenaInvariant_bounds (s : ArenaState) (hinv : arenaInvariant s = true)
    (hne : ¬(s.nextFreeByte = 0 ∧ s.lastFreeByte = 0)) :
    ∃ p, s.pages.getLast? = some p ∧ p.start ≤ s.nextFreeByte ∧
      s.nextFreeByte ≤ s.lastFreeByte ∧ s.lastFreeByte ≤ p.start + p.pageBytes := by
  unfold arenaInvariant at hinv
  rw [if_neg (by simpa using hne)] at hinv
  rcases hlast : s.pages.getLast? with _ | p
  · rw [hlast] at hinv
    exact absurd hinv (by simp)
  · rw [hlast] at hinv
    simp only [Bool.and_eq_true, decide_eq_true_eq] at hinv
    exact ⟨p, rfl, hinv.1.1, hinv.1.2, hinv.2⟩

/-! ## Claim theorems -/

/-- C1: for every initialized arena and every size > 0, `allocate(size)` is
served from the current bump window exactly when
`cursor + roundUp(size, pointerWidth) ≤ limit`, in which case it returns the
old cursor and advances the cursor by the rounded size; otherwise it invokes
page growth, the new page becomes the active (last) page, cursor/limit are
repositioned to its usable window, and the requested block is carved from
the start of the new page. -/
theorem allocateMemory_bump_window_dichotomy (s : ArenaState) (size a : Nat)
    (hsz : 0 < size) :
    (s.nextFreeByte + roundUp size ptrSize ≤ s.lastFreeByte →
      allocateMemory releaseCfg s size true (some a) =
        .ok s.nextFreeByte { s with nextFreeByte := s.nextFreeByte + roundUp size ptrSize }) ∧
    (s.lastFreeByte < s.nextFreeByte + roundUp size ptrSize →
      allocateMemory releaseCfg s size true (some a) =
        .ok a { pages := recordOutgoing s.pages (s.nextFreeByte + roundUp size ptrSize) ++
                  [{ start := a,
                     pageBytes := max defaultPageSize (roundUp size ptrSize + pageHeaderOverhead),
                     usedBytes := 0 }],
                nextFreeByte := a + roundUp size ptrSize,
                lastFreeByte := a + max defaultPageSize (roundUp size ptrSize + pageHeaderOverhead) }) := by
  constructor
  · intro hfast
    exact allocateMemory_fastPath releaseCfg s size true (some a) rfl hfast
  · intro hslow
    rw [allocateMemory_slowPath releaseCfg s size true (some a) rfl hslow]
    rw [allocateNewPage_some]

/-- Witness for C1: a concrete fast-path call and a concrete slow-path call. -/
theorem allocateMemory_bump_window_dichotomy_witness :
    allocateMemory releaseCfg
        { pages := [{ start := 4096, pageBytes := 65536, usedBytes := 0 }],
          nextFreeByte := 4096, lastFreeByte := 69632 } 40 true (some 131072) =
      .ok 4096
        { pages := [{ start := 4096, pageBytes := 65536, usedBytes := 0 }],
          nextFreeByte := 4136, lastFreeByte := 69632 } ∧
    allocateMemory releaseCfg
        { pages := [{ start := 4096, pageBytes := 65536, usedBytes := 0 }],
          nextFreeByte := 69600, lastFreeByte := 69632 } 48 true (some 131072) =
      .ok 131072
        { pages := [{ start := 4096, pageBytes := 65536, usedBytes := 65552 },
                    { start := 131072, pageBytes := 65536, usedBytes := 0 }],
          nextFreeByte := 131120, lastFreeByte := 196608 } :=
  ⟨(allocateMemory_bump_window_dichotomy
      { pages := [{ start := 4096, pageBytes := 65536, usedBytes := 0 }],
        nextFreeByte := 4096, lastFreeByte := 69632 } 40 131072 (by decide)).1 (by decide),
   (allocateMemory_bump_window_dichotomy
      { pages := [{ start := 4096, pageBytes := 65536, usedBytes := 0 }],
        nextFreeByte := 69600, lastFreeByte := 69632 } 48 131072 (by decide)).2 (by decide)⟩

/-- C3: when `allocate(s)` returns a block, the bump cursor ends exactly
`roundUp(s, pointerWidth)` bytes past the returned address (the request
consumes exactly the rounded size), and the returned address is a multiple
of the pointer width — given that the arena's cursor and the backing store's
page addresses are pointer-aligned. -/
theorem allocateMemory_rounded_consumption_and_alignment (cfg : DebugConfig)
    (s : ArenaState) (size : Nat) (probeOk : Bool) (newStart : Option Nat)
    (block : Nat) (s1 : ArenaState)
    (hsz : 0 < size)
    (hcur : s.nextFreeByte % ptrSize = 0)
    (hstart : ∀ x, newStart = some x → x % ptrSize = 0)
    (h : allocateMemory cfg s size probeOk newStart = .ok block s1) :
    s1.nextFreeByte = block + roundUp size ptrSize ∧ block % ptrSize = 0 := by
  rcases allocateMemory_ok_cases cfg s size probeOk newStart block s1 h with
    ⟨hfast, hb, hs⟩ | ⟨hslow, a, ha, hb, hs⟩
  · subst hb
    subst hs
    exact ⟨rfl, hcur⟩
  · subst hb
    subst hs
    exact ⟨rfl, hstart _ ha⟩

/-- Witness for C3: a concrete fast-path allocation of 13 bytes consumes 16
bytes and returns an 8-aligned address. -/
theorem allocateMemory_rounded_consumption_and_alignment_witness :
    ({ pages := [{ start := 4096, pageBytes := 65536, usedBytes := 0 }],
       nextFreeByte := 4112, lastFreeByte := 69632 } : ArenaState).nextFreeByte =
        4096 + roundUp 13 ptrSize ∧ (4096 : Nat) % ptrSize = 0 :=
  allocateMemory_rounded_consumption_and_alignment releaseCfg
    { pages := [{ start := 4096, pageBytes := 65536, usedBytes := 0 }],
      nextFreeByte := 4096, lastFreeByte := 69632 } 13 true (some 131072) 4096
    { pages := [{ start := 4096, pageBytes := 65536, usedBytes := 0 }],
      nextFreeByte := 4112, lastFreeByte := 69632 }
    (by decide) (by decide) (by intro x hx; cases hx; decide) (by decide)

/-- C6: two consecutive `allocate` calls that both hit the fast path return
addresses with `addr2 = addr1 + roundUp(size1, pointerWidth)`. -/
theorem fastPath_contiguity (s : ArenaState) (size1 size2 : Nat)
    (a1 a2 : Option Nat) (addr1 addr2 : Nat) (s1 s2 : ArenaState)
    (hsz1 : 0 < size1) (hsz2 : 0 < size2)
    (hfast1 : s.nextFreeByte + roundUp size1 ptrSize ≤ s.lastFreeByte)
    (h1 : allocateMemory releaseCfg s size1 true a1 = .ok addr1 s1)
    (hfast2 : s1.nextFreeByte + roundUp size2 ptrSize ≤ s1.lastFreeByte)
    (h2 : allocateMemory releaseCfg s1 size2 true a2 = .ok addr2 s2) :
    addr2 = addr1 + roundUp size1 ptrSize := by
  rw [allocateMemory_fastPath releaseCfg s size1 true a1 rfl hfast1] at h1
  injection h1 with hb1 hs1
  rw [allocateMemory_fastPath releaseCfg s1 size2 true a2 rfl hfast2] at h2
  injection h2 with hb2 hs2
  rw [← hb2, ← hs1, ← hb1]

/-- Witness for C6: allocating 40 then 24 bytes from a roomy page yields
addresses 4096 and 4136 = 4096 + roundUp 40 8. -/
theorem fastPath_contiguity_witness : (4136 : Nat) = 4096 + roundUp 40 ptrSize :=
  fastPath_contiguity
    { pages := [{ start := 4096, pageBytes := 65536, usedBytes := 0 }],
      nextFreeByte := 4096, lastFreeByte := 69632 } 40 24 (some 131072) (some 131072)
    4096 4136
    { pages := [{ start := 4096, pageBytes := 65536, usedBytes := 0 }],
      nextFreeByte := 4136, lastFreeByte := 69632 }
    { pages := [{ start := 4096, pageBytes := 65536, usedBytes := 0 }],
      nextFreeByte := 4160, lastFreeByte := 69632 }
    (by decide) (by decide) (by decide) (by decide) (by decide) (by decide)

/-- C10: with assertions compiled out, `allocateMemory(0)` rounds the size
to 0, returns the current cursor without advancing it, leaves the arena
state unchanged whenever `cursor ≤ limit`, and therefore two consecutive
zero-size calls return the same address. -/
theorem allocateMemory_zero_size_noop (s : ArenaState) (a : Option Nat)
    (h : s.nextFreeByte ≤ s.lastFreeByte) :
    allocateMemory releaseCfg s 0 true a = .ok s.nextFreeByte s := by
  have hr : roundUp 0 ptrSize = 0 := by decide
  have hfast : s.nextFreeByte + roundUp 0 ptrSize ≤ s.lastFreeByte := by
    rw [hr]; omega
  rw [allocateMemory_fastPath releaseCfg s 0 true a rfl hfast, hr]
  exact rfl

/-- Witness for C10: a zero-size allocation on a concrete arena returns the
cursor and changes nothing. -/
theorem allocateMemory_zero_size_noop_witness :
    allocateMemory releaseCfg
        { pages := [{ start := 4096, pageBytes := 65536, usedBytes := 0 }],
          nextFreeByte := 4136, lastFreeByte := 69632 } 0 true none =
      .ok 4136
        { pages := [{ start := 4096, pageBytes := 65536, usedBytes := 0 }],
          nextFreeByte := 4136, lastFreeByte := 69632 } :=
  allocateMemory_zero_size_noop
    { pages := [{ start := 4096, pageBytes := 65536, usedBytes := 0 }],
      nextFreeByte := 4136, lastFreeByte := 69632 } none (by decide)

/-- Counterexample to C4 as stated: a request of 65512 bytes is smaller than
the default page size (65536), yet the page created for it has capacity
`max(defaultPageSize, 65512 + 32) = 65544 ≠ defaultPageSize` — the "request
smaller than the default page size creates a page of the default size"
clause fails in the boundary region where the rounded size plus the header
overhead exceeds the default page size. -/
theorem page_capacity_boundary_cex :
    (65512 : Nat) < defaultPageSize ∧
    allocateMemory releaseCfg freshArena 65512 true (some 4096) =
      .ok 4096 { pages := [{ start := 4096, pageBytes := 65544, usedBytes := 0 }],
                 nextFreeByte := 69608, lastFreeByte := 69640 } ∧
    (65544 : Nat) ≠ defaultPageSize := by
  decide

/-- C4 (amended): when page growth is triggered by a request of rounded size
`r`, exactly one new page is created, of capacity
`max(defaultPageSize, r + pageHeaderOverhead)` (the default page size being
sixteen times the platform page size); so a request with
`r + pageHeaderOverhead ≤ defaultPageSize` creates one page of the default
size, and one with `r + pageHeaderOverhead > defaultPageSize` creates one
page of capacity exactly `r + pageHeaderOverhead`. -/
theorem allocateNewPage_capacity_policy (s : ArenaState) (size a : Nat)
    (hsz : 0 < size)
    (hslow : s.lastFreeByte < s.nextFreeByte + roundUp size ptrSize) :
    defaultPageSize = 16 * osPageSize ∧
    ∃ s1, allocateMemory releaseCfg s size true (some a) = .ok a s1 ∧
      s1.pages.length = s.pages.length + 1 ∧
      ∃ p, s1.pages.getLast? = some p ∧
        p.pageBytes = max defaultPageSize (roundUp size ptrSize + pageHeaderOverhead) ∧
        (roundUp size ptrSize + pageHeaderOverhead ≤ defaultPageSize →
          p.pageBytes = defaultPageSize) ∧
        (defaultPageSize < roundUp size ptrSize + pageHeaderOverhead →
          p.pageBytes = roundUp size ptrSize + pageHeaderOverhead) := by
  refine ⟨rfl, ?_⟩
  rw [allocateMemory_slowPath releaseCfg s size true (some a) rfl hslow,
    allocateNewPage_some]
  refine ⟨_, rfl, ?_, ?_⟩
  · simp [recordOutgoing_length]
  · refine ⟨_, List.getLast?_concat _, rfl, ?_, ?_⟩
    · intro hle
      simpa using Nat.max_eq_left hle
    · intro hlt
      simpa using Nat.max_eq_right (Nat.le_of_lt hlt)

/-- Witness for C4 (amended): a slow-path request of 100000 bytes on a fresh
arena creates one page of capacity 100032 = roundUp 100000 8 + 32. -/
theorem allocateNewPage_capacity_policy_witness :
    defaultPageSize = 16 * osPageSize ∧
    ∃ s1, allocateMemory releaseCfg freshArena 100000 true (some 4096) = .ok 4096 s1 ∧
      s1.pages.length = freshArena.pages.length + 1 ∧
      ∃ p, s1.pages.getLast? = some p ∧
        p.pageBytes = max defaultPageSize (roundUp 100000 ptrSize + pageHeaderOverhead) ∧
        (roundUp 100000 ptrSize + pageHeaderOverhead ≤ defaultPageSize →
          p.pageBytes = defaultPageSize) ∧
        (defaultPageSize < roundUp 100000 ptrSize + pageHeaderOverhead →
          p.pageBytes = roundUp 100000 ptrSize + pageHeaderOverhead) :=
  allocateNewPage_capacity_policy freshArena 100000 4096 (by decide) (by decide)

/-- Counterexample to C2 as stated: on a concrete arena whose window cannot
satisfy a 64-byte request, a growth failure (backing store returns null)
escapes as a fatal out-of-memory with the cursor already advanced past the
limit and the outgoing page's high-water record updated — the arena state
after the failed attempt is NOT unchanged. -/
theorem growth_failure_state_changed_cex :
    allocateMemory releaseCfg
        { pages := [{ start := 4096, pageBytes := 65536, usedBytes := 0 }],
          nextFreeByte := 69600, lastFreeByte := 69632 } 64 true none =
      .oom { pages := [{ start := 4096, pageBytes := 65536, usedBytes := 65568 }],
             nextFreeByte := 69664, lastFreeByte := 69632 } ∧
    ({ pages := [{ start := 4096, pageBytes := 65536, usedBytes := 65568 }],
       nextFreeByte := 69664, lastFreeByte := 69632 } : ArenaState) ≠
      { pages := [{ start := 4096, pageBytes := 65536, usedBytes := 0 }],
        nextFreeByte := 69600, lastFreeByte := 69632 } := by
  decide

/-- C2 (amended): a fail-fast allocation that cannot be satisfied aborts as
a fatal out-of-memory without corrupting the arena: an injected-fault
failure leaves the state exactly unchanged, and a page-growth failure
leaves the page chain (length and every page capacity), the total-allocated
accounting and the limit pointer unchanged — only the bump cursor (already
advanced by the rounded size) and the outgoing page's recorded high-water
mark differ — and the arena remains consistent and destroyable: `destroy`
still releases the chain and yields the same pristine state as before. -/
theorem growth_failure_preserves_chain_and_destroyability (cfg : DebugConfig)
    (s : ArenaState) (size : Nat) (probeOk : Bool)
    (hslow : s.lastFreeByte < s.nextFreeByte + roundUp size ptrSize) :
    ((cfg.isDebug && cfg.injectFault && !probeOk) = true →
      allocateMemory cfg s size probeOk none = .oom s) ∧
    ((cfg.isDebug && cfg.injectFault && !probeOk) = false →
      ∃ s1, allocateMemory cfg s size probeOk none = .oom s1 ∧
        s1.pages.length = s.pages.length ∧
        (s1.pages.map fun p => p.pageBytes) = (s.pages.map fun p => p.pageBytes) ∧
        getTotalBytesAllocated s1 = getTotalBytesAllocated s ∧
        s1.lastFreeByte = s.lastFreeByte ∧
        s1.nextFreeByte = s.nextFreeByte + roundUp size ptrSize ∧
        (destroy s1).2 = (destroy s).2 ∧
        arenaInvariant (destroy s1).2 = true) := by
  constructor
  · intro hf
    exact allocateMemory_fault cfg s size probeOk none hf
  · intro hne
    rw [allocateMemory_slowPath cfg s size probeOk none hne hslow,
      allocateNewPage_none_canThrow]
    refine ⟨_, rfl, recordOutgoing_length _ _, recordOutgoing_map_pageBytes _ _, ?_,
      rfl, rfl, rfl, rfl⟩
    unfold getTotalBytesAllocated
    rw [recordOutgoing_map_pageBytes]

/-- Witness for C2 (amended): the concrete growth failure above keeps the
chain, accounting and destroyability intact. -/
theorem growth_failure_preserves_chain_and_destroyability_witness :
    ∃ s1, allocateMemory releaseCfg
        { pages := [{ start := 4096, pageBytes := 65536, usedBytes := 0 }],
          nextFreeByte := 69600, lastFreeByte := 69632 } 64 false none = .oom s1 ∧
      s1.pages.length =
        ({ pages := [{ start := 4096, pageBytes := 65536, usedBytes := 0 }],
           nextFreeByte := 69600, lastFreeByte := 69632 } : ArenaState).pages.length ∧
      (s1.pages.map fun p => p.pageBytes) =
        (({ pages := [{ start := 4096, pageBytes := 65536, usedBytes := 0 }],
            nextFreeByte := 69600, lastFreeByte := 69632 } : ArenaState).pages.map
          fun p => p.pageBytes) ∧
      getTotalBytesAllocated s1 =
        getTotalBytesAllocated
          { pages := [{ start := 4096, pageBytes := 65536, usedBytes := 0 }],
            nextFreeByte := 69600, lastFreeByte := 69632 } ∧
      s1.lastFreeByte = 69632 ∧
      s1.nextFreeByte = 69600 + roundUp 64 ptrSize ∧
      (destroy s1).2 =
        (destroy { pages := [{ start := 4096, pageBytes := 65536, usedBytes := 0 }],
                   nextFreeByte := 69600, lastFreeByte := 69632 }).2 ∧
      arenaInvariant (destroy s1).2 = true :=
  (growth_failure_preserves_chain_and_destroyability releaseCfg
    { pages := [{ start := 4096, pageBytes := 65536, usedBytes := 0 }],
      nextFreeByte := 69600, lastFreeByte := 69632 } 64 false (by decide)).2 rfl

/-- C5: in a diagnostic build with fault injection enabled, a failed 1-byte
probe through the process heap makes `allocate` report out-of-memory even
when the current bump window has enough free space for the request (the
probe block is then not freed); a successful probe is freed again and the
allocation proceeds exactly as it would with fault injection off. -/
theorem fault_injection_probe_behaviour (cfg : DebugConfig) (s : ArenaState)
    (size : Nat) (newStart : Option Nat)
    (hdbg : cfg.isDebug = true) (hinj : cfg.injectFault = true)
    (hroom : s.nextFreeByte + roundUp size ptrSize ≤ s.lastFreeByte) :
    allocateMemory cfg s size false newStart = .oom s ∧
    probeTrace cfg false = [.alloc] ∧
    allocateMemory cfg s size true newStart =
      allocateMemory { cfg with injectFault := false } s size true newStart ∧
    probeTrace cfg true = [.alloc, .free] := by
  refine ⟨?_, ?_, ?_, ?_⟩
  · exact allocateMemory_fault cfg s size false newStart (by rw [hdbg, hinj]; rfl)
  · simp [probeTrace, hdbg, hinj]
  · unfold allocateMemory
    simp
  · simp [probeTrace, hdbg, hinj]

/-- Witness for C5: with fault injection on and a roomy window, a failed
probe yields out-of-memory with the arena untouched; a successful probe
behaves like the injection-free build. -/
theorem fault_injection_probe_behaviour_witness :
    allocateMemory { isDebug := true, injectFault := true }
        { pages := [{ start := 4096, pageBytes := 65536, usedBytes := 0 }],
          nextFreeByte := 4096, lastFreeByte := 69632 } 40 false (some 131072) =
      .oom { pages := [{ start := 4096, pageBytes := 65536, usedBytes := 0 }],
             nextFreeByte := 4096, lastFreeByte := 69632 } ∧
    probeTrace { isDebug := true, injectFault := true } false = [.alloc] ∧
    allocateMemory { isDebug := true, injectFault := true }
        { pages := [{ start := 4096, pageBytes := 65536, usedBytes := 0 }],
          nextFreeByte := 4096, lastFreeByte := 69632 } 40 true (some 131072) =
      allocateMemory { isDebug := true, injectFault := false }
        { pages := [{ start := 4096, pageBytes := 65536, usedBytes := 0 }],
          nextFreeByte := 4096, lastFreeByte := 69632 } 40 true (some 131072) ∧
    probeTrace { isDebug := true, injectFault := true } true = [.alloc, .free] :=
  fault_injection_probe_behaviour { isDebug := true, injectFault := true }
    { pages := [{ start := 4096, pageBytes := 65536, usedBytes := 0 }],
      nextFreeByte := 4096, lastFreeByte := 69632 } 40 (some 131072) rfl rfl (by decide)

/-- C8: in a diagnostic build, whenever `allocate(size)` services a request,
every byte of the returned block over the full rounded size is overwritten
with the fixed sentinel pattern. -/
theorem debug_stamping_sentinel (cfg : DebugConfig) (s : ArenaState) (size : Nat)
    (probeOk : Bool) (newStart : Option Nat) (block : Nat) (s1 : ArenaState) (mem : Mem)
    (hdbg : cfg.isDebug = true)
    (h : allocateMemory cfg s size probeOk newStart = .ok block s1) :
    (allocateMemoryMem cfg s size probeOk newStart mem).1 = .ok block s1 ∧
    ∀ i, i < roundUp size ptrSize →
      (allocateMemoryMem cfg s size probeOk newStart mem).2 (block + i) =
        uninitializedSentinel := by
  unfold allocateMemoryMem
  rw [h, hdbg]
  refine ⟨rfl, ?_⟩
  intro i hi
  simp only [if_pos]
  unfold memset
  rw [if_pos ⟨Nat.le_add_right block i, by omega⟩]

/-- Witness for C8: stamping a concrete 13-byte allocation covers all 16
bytes of the rounded block with the sentinel, starting from memory that held
zeroes. -/
theorem debug_stamping_sentinel_witness :
    (allocateMemoryMem { isDebug := true, injectFault := false }
        { pages := [{ start := 4096, pageBytes := 65536, usedBytes := 0 }],
          nextFreeByte := 4096, lastFreeByte := 69632 } 13 true (some 131072)
        (fun _ => 0)).1 =
      .ok 4096
        { pages := [{ start := 4096, pageBytes := 65536, usedBytes := 0 }],
          nextFreeByte := 4112, lastFreeByte := 69632 } ∧
    ∀ i, i < roundUp 13 ptrSize →
      (allocateMemoryMem { isDebug := true, injectFault := false }
          { pages := [{ start := 4096, pageBytes := 65536, usedBytes := 0 }],
            nextFreeByte := 4096, lastFreeByte := 69632 } 13 true (some 131072)
          (fun _ => 0)).2 (4096 + i) = uninitializedSentinel :=
  debug_stamping_sentinel { isDebug := true, injectFault := false }
    { pages := [{ start := 4096, pageBytes := 65536, usedBytes := 0 }],
      nextFreeByte := 4096, lastFreeByte := 69632 } 13 true (some 131072) 4096
    { pages := [{ start := 4096, pageBytes := 65536, usedBytes := 0 }],
      nextFreeByte := 4112, lastFreeByte := 69632 } (fun _ => 0) rfl (by decide)

/-- C9: `allocateMemory` always requests fail-fast page growth (it calls
`allocateNewPage(size, true)` on the slow path), so the fail-soft
null-returning outcome is unreachable through this entry point, and a normal
return always yields a non-null pointer (for positive sizes, on an arena
satisfying the state invariant, with page addresses supplied by the backing
store being non-null). -/
theorem allocateMemory_failfast_nonnull (cfg : DebugConfig) (s : ArenaState)
    (size : Nat) (probeOk : Bool) (newStart : Option Nat)
    (hsz : 0 < size)
    (hinv : arenaInvariant s = true)
    (hpagepos : ∀ p, s.pages.getLast? = some p → 0 < p.start)
    (hstartpos : ∀ x, newStart = some x → 0 < x) :
    (∀ t, allocateMemory cfg s size probeOk newStart ≠ .nullPtr t) ∧
    (∀ block s1, allocateMemory cfg s size probeOk newStart = .ok block s1 →
      0 < block) := by
  constructor
  · intro t hcontra
    by_cases hf : (cfg.isDebug && cfg.injectFault && !probeOk) = true
    · rw [allocateMemory_fault cfg s size probeOk newStart hf] at hcontra
      exact absurd hcontra (by simp)
    · have hne : (cfg.isDebug && cfg.injectFault && !probeOk) = false := by
        simpa using hf
      by_cases hc : s.nextFreeByte + roundUp size ptrSize ≤ s.lastFreeByte
      · rw [allocateMemory_fastPath cfg s size probeOk newStart hne hc] at hcontra
        exact absurd hcontra (by simp)
      · have hslow : s.lastFreeByte < s.nextFreeByte + roundUp size ptrSize := by omega
        rw [allocateMemory_slowPath cfg s size probeOk newStart hne hslow] at hcontra
        cases newStart with
        | none => rw [allocateNewPage_none_canThrow] at hcontra
                  exact absurd hcontra (by simp)
        | some a => rw [allocateNewPage_some] at hcontra
                    exact absurd hcontra (by simp)
  · intro block s1 h
    rcases allocateMemory_ok_cases cfg s size probeOk newStart block s1 h with
      ⟨hfast, hb, _⟩ | ⟨_, a, ha, hb, _⟩
    · have hp8 : 0 < ptrSize := by decide
      have hru := ptrSize_le_roundUp size hsz
      rcases arenaInvariant_bounds s hinv (by omega) with ⟨p, hpl, hps, hcl, hlp⟩
      have hpos := hpagepos p hpl
      subst hb
      omega
    · subst hb
      exact hstartpos _ ha

/-- Witness for C9: on a concrete roomy arena the fail-soft outcome is
impossible and the returned pointer is non-null. -/
theorem allocateMemory_failfast_nonnull_witness :
    (∀ t, allocateMemory releaseCfg
        { pages := [{ start := 4096, pageBytes := 65536, usedBytes := 0 }],
          nextFreeByte := 4096, lastFreeByte := 69632 } 40 true (some 131072) ≠
      .nullPtr t) ∧
    (∀ block s1, allocateMemory releaseCfg
        { pages := [{ start := 4096, pageBytes := 65536, usedBytes := 0 }],
          nextFreeByte := 4096, lastFreeByte := 69632 } 40 true (some 131072) =
      .ok block s1 → 0 < block) :=
  allocateMemory_failfast_nonnull releaseCfg
    { pages := [{ start := 4096, pageBytes := 65536, usedBytes := 0 }],
      nextFreeByte := 4096, lastFreeByte := 69632 } 40 true (some 131072)
    (by decide) (by decide) (by intro p hp; cases hp; decide)
    (by intro x hx; cases hx; decide)

theorem arenaInvariant_intro (s : ArenaState) (p : PageDescriptor)
    (hpl : s.pages.getLast? = some p)
    (h1 : p.start ≤ s.nextFreeByte) (h2 : s.nextFreeByte ≤ s.lastFreeByte)
    (h3 : s.lastFreeByte ≤ p.start + p.pageBytes) :
    arenaInvariant s = true := by
  unfold arenaInvariant
  split
  · rfl
  · rw [hpl]
    simp only [Bool.and_eq_true, decide_eq_true_eq]
    exact ⟨⟨h1, h2⟩, h3⟩

/-- C7: the state invariant — whenever the cursor and limit pointers are
non-null, the page chain is nonempty and
`pageStart(lastPage) ≤ cursor ≤ limit ≤ pageStart(lastPage) + capacityBytes(lastPage)`
— holds for a just-constructed arena, is preserved by every `allocate` call
that returns normally (any build configuration), and holds again after
`destroy`. -/
theorem arenaInvariant_preserved :
    arenaInvariant freshArena = true ∧
    (∀ cfg s size probeOk newStart block s1, 0 < size →
      arenaInvariant s = true →
      allocateMemory cfg s size probeOk newStart = .ok block s1 →
      arenaInvariant s1 = true) ∧
    (∀ s, arenaInvariant (destroy s).2 = true) := by
  refine ⟨rfl, ?_, fun s => rfl⟩
  intro cfg s size probeOk newStart block s1 hsz hinv h
  rcases allocateMemory_ok_cases cfg s size probeOk newStart block s1 h with
    ⟨hfast, _, hs⟩ | ⟨_, a, _, _, hs⟩
  · have hp8 : 0 < ptrSize := by decide
    have hru := ptrSize_le_roundUp size hsz
    rcases arenaInvariant_bounds s hinv (by omega) with ⟨p, hpl, hps, hcl, hlp⟩
    subst hs
    refine arenaInvariant_intro _ p hpl ?_ ?_ ?_
    · show p.start ≤ s.nextFreeByte + roundUp size ptrSize
      omega
    · show s.nextFreeByte + roundUp size ptrSize ≤ s.lastFreeByte
      omega
    · show s.lastFreeByte ≤ p.start + p.pageBytes
      omega
  · subst hs
    refine arenaInvariant_intro _
      { start := a,
        pageBytes := max defaultPageSize (roundUp size ptrSize + pageHeaderOverhead),
        usedBytes := 0 }
      (List.getLast?_concat _) (Nat.le_add_right a _) ?_ (Nat.le_refl _)
    exact Nat.add_le_add_left
      (Nat.le_trans (Nat.le_add_right _ _) (Nat.le_max_right _ _)) a

/-- Witness for C7: the invariant holds on a fresh arena, is preserved by a
concrete fast-path allocation, and holds after destroying that arena. -/
theorem arenaInvariant_preserved_witness :
    arenaInvariant freshArena = true ∧
    arenaInvariant
      { pages := [{ start := 4096, pageBytes := 65536, usedBytes := 0 }],
        nextFreeByte := 4136, lastFreeByte := 69632 } = true ∧
    arenaInvariant
      (destroy { pages := [{ start := 4096, pageBytes := 65536, usedBytes := 0 }],
                 nextFreeByte := 4096, lastFreeByte := 69632 }).2 = true :=
  ⟨arenaInvariant_preserved.1,
   arenaInvariant_preserved.2.1 releaseCfg
     { pages := [{ start := 4096, pageBytes := 65536, usedBytes := 0 }],
       nextFreeByte := 4096, lastFreeByte := 69632 } 40 true (some 131072) 4096
     { pages := [{ start := 4096, pageBytes := 65536, usedBytes := 0 }],
       nextFreeByte := 4136, lastFreeByte := 69632 }
     (by decide) (by decide) (by decide),
   arenaInvariant_preserved.2.2
     { pages := [{ start := 4096, pageBytes := 65536, usedBytes := 0 }],
       nextFreeByte := 4096, lastFreeByte := 69632 }⟩
